import Mathlib

/-
Shallow embedding of the authentication subsystem of the
`module14_assignment` repository (FastAPI user registration / login with
JWT tokens).

Sources embedded from the repository:
  * `src/app/core/config.py`      — the `Settings` object and its defaults.
  * `src/app/schemas/base.py`     — `PasswordMixin`, `UserBase`, `UserCreate`,
                                    `UserLogin` Pydantic schemas.
Components whose implementation module is absent from `src/` (only their
tests and callers are present: `app/models/user.py`, `app/auth/jwt.py`,
`app/schemas/token.py`) are modelled from the specification, each with a
doc comment starting `Modelled from the spec:`.

Machine conventions:
  * timestamps are natural numbers (seconds);
  * Python `str` is Lean `String`; character classes (`isupper`, `islower`,
    `isdigit`, `isalnum`) are modelled by the corresponding ASCII
    predicates on `Char` (every password in the repository's tests is
    ASCII);
  * bcrypt's random salt is modelled by threading an entropy counter:
    each hashing call consumes the current counter value as its salt and
    returns the bumped counter.
-/

/-- Application settings, embedded from `src/app/core/config.py`
(`class Settings(BaseSettings)`), restricted to the fields the
authentication subsystem reads.  The default values are the ones in the
source. -/
structure Settings where
  JWT_SECRET_KEY : String := "your-super-secret-key-change-this-in-production"
  JWT_REFRESH_SECRET_KEY : String := "your-refresh-secret-key-change-this-in-production"
  ALGORITHM : String := "HS256"
  ACCESS_TOKEN_EXPIRE_MINUTES : Nat := 30
  REFRESH_TOKEN_EXPIRE_DAYS : Nat := 7
  BCRYPT_ROUNDS : Nat := 12
deriving DecidableEq

/-- The module-level `settings = Settings()` singleton of
`src/app/core/config.py`: all defaults. -/
def settings : Settings := {}

/- ===================== Credential hasher ===================== -/

/-- A stored password digest: the salt embedded in the digest together
with the salted hash body.  Models the bcrypt digest produced by
`pwd_context.hash` (spec section 4.1: the digest embeds a random salt, and
verification recomputes using the salt embedded in the digest). -/
structure Digest where
  salt : Nat
  body : Nat
deriving DecidableEq

/-- Abstract one-way mixing of a plaintext with a salt (stands in for the
bcrypt core; irreversibility is outside the model, the functional
behaviour — deterministic in (plaintext, salt) — is what matters). -/
def hashBody (p : String) (salt : Nat) : Nat :=
  p.data.foldl (fun a c => a * 31 + c.toNat) 7 + salt * 1000003

/-- Modelled from the spec: `get_password_hash` of the absent
`app/auth/jwt.py` (spec section 4.1, `hash(plaintext) -> digest`).  The
second argument is the entropy state supplying the fresh random salt; the
call returns the digest together with the advanced entropy state, so two
successive calls use different salts. -/
def get_password_hash (p : String) (entropy : Nat) : Digest × Nat :=
  (⟨entropy, hashBody p entropy⟩, entropy + 1)

/-- Modelled from the spec: `verify_password` of the absent
`app/auth/jwt.py` (spec section 4.1, `verify(plaintext, digest) -> bool`):
recomputes the hash using the salt embedded in the digest and compares. -/
def verify_password (p : String) (d : Digest) : Bool :=
  hashBody p d.salt == d.body

/- ===================== Token codec ===================== -/

/-- Modelled from the spec: the token-kind tag of the absent
`app/schemas/token.py` (the tests import `TokenType`); spec section 3:
kind (access | refresh). -/
inductive TokenType
  | access
  | refresh
deriving DecidableEq

/-- Modelled from the spec: the kind-specific signing secret (spec
section 4.2: access tokens and refresh tokens use different secrets),
taken from the embedded `Settings`. -/
def secret_for (st : Settings) : TokenType → String
  | TokenType.access => st.JWT_SECRET_KEY
  | TokenType.refresh => st.JWT_REFRESH_SECRET_KEY

/-- Modelled from the spec: the lifetime, in seconds, of each token kind
(spec section 3 / `Settings`: access = ACCESS_TOKEN_EXPIRE_MINUTES
minutes, refresh = REFRESH_TOKEN_EXPIRE_DAYS days). -/
def token_ttl (st : Settings) : TokenType → Nat
  | TokenType.access => st.ACCESS_TOKEN_EXPIRE_MINUTES * 60
  | TokenType.refresh => st.REFRESH_TOKEN_EXPIRE_DAYS * 86400

/-- A token signature: models the HMAC computed over subject, kind and
expiry with the kind-specific secret (spec section 3: signature computed
over subject+kind+expiry with a secret distinct per kind).  Two
signatures are equal exactly when all the signed material and the secret
agree. -/
structure Sig where
  secret : String
  sub : String
  kind : TokenType
  exp : Nat
deriving DecidableEq

/-- A decoded token payload: subject, kind tag, issued-at, expiry and
signature (spec section 3, Token attributes). -/
structure Token where
  sub : String
  kind : TokenType
  iat : Nat
  exp : Nat
  sig : Sig
deriving DecidableEq

/-- Error taxonomy of the codec (spec section 7): `expired` is
`TokenExpired`, `invalid` is `TokenInvalid`. -/
inductive TokenError
  | expired
  | invalid
deriving DecidableEq

/-- Modelled from the spec: `create_token` of the absent
`app/auth/jwt.py` (spec section 4.2, `issue(subject, kind, now) ->
token`): embeds subject, kind, issued-at and expiry `now + duration[kind]`
signed with the kind-specific secret. -/
def create_token (st : Settings) (sub : String) (kind : TokenType) (now : Nat) : Token :=
  ⟨sub, kind, now, now + token_ttl st kind,
   ⟨secret_for st kind, sub, kind, now + token_ttl st kind⟩⟩

/-- Modelled from the spec: `decode_token` of the absent
`app/auth/jwt.py` (spec sections 4.2 and 8): verify the signature with
the expected kind's secret, then the expiry, then the kind tag.  A token
is expired from the moment `now` reaches the expiry instant (spec
section 8: decoding fails `TokenExpired` when the elapsed time is ≥ the
kind's ttl). -/
def decode_token (st : Settings) (t : Token) (expected : TokenType) (now : Nat) :
    Except TokenError String :=
  if t.sig = (⟨secret_for st expected, t.sub, t.kind, t.exp⟩ : Sig) then
    if t.exp ≤ now then Except.error TokenError.expired
    else if t.kind = expected then Except.ok t.sub
    else Except.error TokenError.invalid
  else Except.error TokenError.invalid

/- ===================== User directory ===================== -/

/-- Modelled from the spec: the persisted `User` entity of the absent
`app/models/user.py` (spec section 3, User attributes; the tests
construct users with exactly these fields). -/
structure User where
  id : Nat
  first_name : String
  last_name : String
  email : String
  username : String
  password : Digest
  is_active : Bool
  is_verified : Bool
  created_at : Nat
  updated_at : Nat
  last_login : Option Nat
deriving DecidableEq

/-- The durable user table together with the id allocator (spec
section 5: the storage layer is the sole shared mutable resource). -/
structure Directory where
  users : List User
  nextId : Nat
deriving DecidableEq

/-- The business fields supplied at registration (spec section 4.3
`create(fields)`); the password arrives already hashed (digest computed
at creation time, spec section 3). -/
structure RegistrationData where
  first_name : String
  last_name : String
  email : String
  username : String
  password : Digest
deriving DecidableEq

/-- Typed registration conflicts (spec section 7): `DuplicateEmail` and
`DuplicateUsername`. -/
inductive CreateError
  | duplicateEmail
  | duplicateUsername
deriving DecidableEq

/-- Modelled from the spec: `create(fields) -> User |
fails(DuplicateEmail | DuplicateUsername)` (spec section 4.3).  The
storage layer's unique constraints on email and username are surfaced as
the typed duplicate errors; on success the row is inserted atomically
with `is_active` defaulting to true, `is_verified` to false, both
timestamps set to creation time and no last login (spec section 3). -/
def Directory.create (db : Directory) (f : RegistrationData) (now : Nat) :
    Except CreateError (User × Directory) :=
  if db.users.any (fun u => u.email == f.email) then
    Except.error CreateError.duplicateEmail
  else if db.users.any (fun u => u.username == f.username) then
    Except.error CreateError.duplicateUsername
  else
    let u : User := ⟨db.nextId, f.first_name, f.last_name, f.email, f.username,
                     f.password, true, false, now, now, none⟩
    Except.ok (u, ⟨db.users ++ [u], db.nextId + 1⟩)

/-- Modelled from the spec: `find_by_username_or_email(s) -> User | None`
(spec section 4.3); the authenticate tests resolve the identifier by
username and by email against the same operation. -/
def find_by_username_or_email (db : Directory) (s : String) : Option User :=
  db.users.find? (fun u => u.username == s || u.email == s)

/-- Primary-key lookup used by the persistence-after-constraint test
(`query(User).filter_by(id=saved_id).first()`). -/
def Directory.find_by_id (db : Directory) (i : Nat) : Option User :=
  db.users.find? (fun u => u.id == i)

/-- The optional keyword arguments of the user `update` method (the tests
call `user.update(first_name=...)`, `user.update()` etc.); `none` means
the field is not named in the call. -/
structure UpdateFields where
  first_name : Option String := none
  last_name : Option String := none
  email : Option String := none
  username : Option String := none
  password : Option Digest := none
  is_active : Option Bool := none
  is_verified : Option Bool := none
  last_login : Option (Option Nat) := none
deriving DecidableEq

/-- The empty field set: `user.update()` with no keyword arguments. -/
def emptyUpdate : UpdateFields := {}

/-- Modelled from the spec: `update(user, partial_fields) -> User` of the
absent `app/models/user.py` (spec section 4.3: always bumps `updated_at`,
even with an empty field set; every attribute not named keeps its prior
value; `id` and `created_at` are never touched). -/
def User.update (u : User) (f : UpdateFields) (now : Nat) : User :=
  ⟨u.id,
   f.first_name.getD u.first_name,
   f.last_name.getD u.last_name,
   f.email.getD u.email,
   f.username.getD u.username,
   f.password.getD u.password,
   f.is_active.getD u.is_active,
   f.is_verified.getD u.is_verified,
   u.created_at,
   now,
   f.last_login.getD u.last_login⟩

/-- Writing the updated row back to the table (the ORM session commit):
replaces the row with the matching id. -/
def replace_user (db : Directory) (u2 : User) : Directory :=
  ⟨db.users.map (fun v => if v.id == u2.id then u2 else v), db.nextId⟩

/- ===================== Authenticator ===================== -/

/-- The successful authentication result (the tests read
`result["access_token"]`, `result["refresh_token"]`, `result["user"]`). -/
structure AuthResult where
  access_token : Token
  refresh_token : Token
  user : User
deriving DecidableEq

/-- Modelled from the spec: `User.authenticate` of the absent
`app/models/user.py` (spec section 4.4 state machine):
lookup by username-or-email (not found ⇒ the no-match signal `none`,
identical to a wrong password), verify the password against the stored
digest (mismatch ⇒ `none`), mint one access and one refresh token bound
to the user's id, record the login by setting `last_login` to the
current time through the directory `update` (which bumps `updated_at` as
a side effect), and return the tokens plus the user.  No step inspects
`is_active` (spec section 4.4 design note). -/
def User.authenticate (st : Settings) (db : Directory) (ident pass : String) (now : Nat) :
    Option (AuthResult × Directory) :=
  match find_by_username_or_email db ident with
  | none => none
  | some u =>
    if verify_password pass u.password then
      let u2 := User.update u { last_login := some (some now) } now
      some (⟨create_token st (toString u.id) TokenType.access now,
             create_token st (toString u.id) TokenType.refresh now,
             u2⟩,
            replace_user db u2)
    else none

/- ===================== Token subject verification ===================== -/

/-- ASCII hexadecimal digit, the character class of a UUID body. -/
def isHexDigit (c : Char) : Bool :=
  c.isDigit || ('a' ≤ c && c ≤ 'f') || ('A' ≤ c && c ≤ 'F')

/-- The canonical hyphenated UUID text form (8-4-4-4-12 hexadecimal
digits), the format `str(uuid.uuid4())` produces and `uuid.UUID` parses
in the tests. -/
def is_uuid (s : String) : Bool :=
  s.length == 36 &&
    (List.range 36).all (fun i =>
      if i == 8 || i == 13 || i == 18 || i == 23 then
        s.data.getD i ' ' == '-'
      else
        isHexDigit (s.data.getD i ' '))

/-- Modelled from the spec: `User.verify_token` of the absent
`app/models/user.py`, restricted to subject handling (spec section 4.3:
`verify_identifier(token_subject) -> user_id | fails(InvalidSubject)`
parses and validates that a decoded token subject is a well-formed
identifier before any lookup occurs).  The argument is the `sub` claim of
the decoded payload (`none` when the claim is absent); the tests show the
failure signal is `None`. -/
def User.verify_token (payload_sub : Option String) : Option String :=
  match payload_sub with
  | none => none
  | some s => if is_uuid s then some s else none

/- ===================== Pydantic schemas (src/app/schemas/base.py) ===================== -/

/-- Embedded from `src/app/schemas/base.py`, `PasswordMixin`: the field
constraint `min_length=8` together with the `validate_password` model
validator (at least one uppercase letter, one lowercase letter, one
digit).  Returns whether a password value passes the mixin's
validation. -/
def passwordMixinAccepts (p : String) : Bool :=
  8 ≤ p.length &&
  p.data.any Char.isUpper &&
  p.data.any Char.isLower &&
  p.data.any Char.isDigit

/-- Embedded from `src/app/schemas/base.py`, `UserLogin(PasswordMixin)`:
username length 3–50 plus the inherited password field constraint and
`validate_password` model validator. -/
def userLoginAccepts (username password : String) : Bool :=
  3 ≤ username.length && username.length ≤ 50 && passwordMixinAccepts password

/-- Special character in the sense of the password-strength rule tested
for `app.schemas.user` (`test_usercreate_password_no_special_char`): a
character that is not alphanumeric. -/
def hasSpecialChar (s : String) : Bool :=
  s.data.any (fun c => !c.isAlphanum)

/- ===================== Sample data for witnesses ===================== -/

/-- Sample stored digest of the plaintext "Secret123" (salt state 0). -/
def sampleDigest : Digest := (get_password_hash "Secret123" 0).1

/-- Sample persisted user row used by concrete witnesses. -/
def sampleUser : User :=
  ⟨1, "John", "Doe", "john.doe@example.com", "johndoe", sampleDigest,
   true, false, 10, 10, none⟩

/-- Sample directory holding `sampleUser`. -/
def sampleDb : Directory := ⟨[sampleUser], 2⟩

/- ===================== Theorems ===================== -/

/-- C5: for every plaintext p, verifying p against the digest produced by
hashing p succeeds, and two successive calls to the hasher on the same
plaintext (the second consuming the entropy state the first returned)
produce two different digests, because each call salts with a fresh
value. -/
theorem hash_verify_roundtrip_and_fresh_salt (p : String) (g : Nat) :
    verify_password p (get_password_hash p g).1 = true
    ∧ (get_password_hash p g).1 ≠ (get_password_hash p (get_password_hash p g).2).1 := by
  constructor
  · simp [verify_password, get_password_hash]
  · intro h
    have hs := congrArg Digest.salt h
    simp [get_password_hash] at hs

/-- C4: decoding a token issued for subject s and kind k at time t0, with
the matching expected kind, at time t0 + Δ returns s whenever Δ is below
the kind's ttl and fails with TokenExpired whenever Δ reaches the ttl;
under the default settings the access ttl is 30 minutes and the refresh
ttl is 7 days. -/
theorem token_decode_issue_ttl (st : Settings) (s : String) (k : TokenType) (t0 d : Nat) :
    (d < token_ttl st k →
      decode_token st (create_token st s k t0) k (t0 + d) = Except.ok s)
    ∧ (token_ttl st k ≤ d →
      decode_token st (create_token st s k t0) k (t0 + d) =
        Except.error TokenError.expired)
    ∧ token_ttl settings TokenType.access = 30 * 60
    ∧ token_ttl settings TokenType.refresh = 7 * 86400 := by
  refine ⟨?_, ?_, rfl, rfl⟩
  · intro h
    have h1 : ¬ (t0 + token_ttl st k ≤ t0 + d) := by omega
    simp [decode_token, create_token, h1]
  · intro h
    have h1 : t0 + token_ttl st k ≤ t0 + d := by omega
    simp [decode_token, create_token, h1]

/-- Witness for C4 at a concrete input: subject "42", kind access, issued
at 0, decoded one second before and exactly at the 30-minute default
ttl. -/
theorem token_decode_issue_ttl_witness :
    (1799 < token_ttl settings TokenType.access
      ∧ decode_token settings (create_token settings "42" TokenType.access 0)
          TokenType.access (0 + 1799) = Except.ok "42")
    ∧ (token_ttl settings TokenType.access ≤ 1800
      ∧ decode_token settings (create_token settings "42" TokenType.access 0)
          TokenType.access (0 + 1800) = Except.error TokenError.expired) :=
  ⟨⟨by decide, (token_decode_issue_ttl settings "42" TokenType.access 0 1799).1 (by decide)⟩,
   ⟨by decide, (token_decode_issue_ttl settings "42" TokenType.access 0 1800).2.1 (by decide)⟩⟩

/-- C9: verifying a decoded token payload's subject fails (with the
InvalidSubject signal, returned as no-match rather than an exception)
when the subject claim is absent or not a well-formed UUID, and returns
the user id without any directory lookup when the subject is
well-formed. -/
theorem verify_token_subject_validation (sub : Option String) :
    (sub = none → User.verify_token sub = none)
    ∧ (∀ s, sub = some s → is_uuid s = false → User.verify_token sub = none)
    ∧ (∀ s, sub = some s → is_uuid s = true → User.verify_token sub = some s) := by
  refine ⟨?_, ?_, ?_⟩
  · intro h; simp [h, User.verify_token]
  · intro s hs hbad; simp [hs, User.verify_token, hbad]
  · intro s hs hok; simp [hs, User.verify_token, hok]

/-- Witness for C9 at concrete inputs: an absent subject, the malformed
subject "not-a-uuid" from the repository's test, and a canonical
well-formed UUID. -/
theorem verify_token_subject_validation_witness :
    User.verify_token none = none
    ∧ User.verify_token (some "not-a-uuid") = none
    ∧ User.verify_token (some "123e4567-e89b-12d3-a456-426614174000") =
        some "123e4567-e89b-12d3-a456-426614174000" :=
  ⟨(verify_token_subject_validation none).1 rfl,
   (verify_token_subject_validation (some "not-a-uuid")).2.1 "not-a-uuid" rfl (by decide),
   (verify_token_subject_validation (some "123e4567-e89b-12d3-a456-426614174000")).2.2
     "123e4567-e89b-12d3-a456-426614174000" rfl (by decide)⟩

/-- C8 counterexample: the password "SecurePass123" — the very
no-special-character input of the repository's schema test — contains no
special character yet passes the `PasswordMixin` validation of
`src/app/schemas/base.py`, so the full strength check including a
special-character rule does not hold at every password-accepting input
shape. -/
theorem passwordMixin_accepts_without_special_char :
    passwordMixinAccepts "SecurePass123" = true
    ∧ hasSpecialChar "SecurePass123" = false := by
  constructor
  · decide
  · decide

/-- C8 amended: the single stateless policy enforced by the shared
`PasswordMixin` of `src/app/schemas/base.py` is exactly min-length 8 plus
at least one uppercase letter, one lowercase letter and one digit; a
special character is not required there (the special-character rule
exists only in the separate `app.schemas.user` shapes). -/
theorem passwordMixin_policy_characterization (p : String) :
    passwordMixinAccepts p = true ↔
      (8 ≤ p.length ∧ p.data.any Char.isUpper = true
        ∧ p.data.any Char.isLower = true ∧ p.data.any Char.isDigit = true) := by
  simp [passwordMixinAccepts, and_assoc]

/-- C10: every login input accepted by the `UserLogin` schema of
`src/app/schemas/base.py` necessarily carries a password of length at
least 8 containing at least one uppercase letter, one lowercase letter
and one digit, because `UserLogin` inherits `PasswordMixin`'s model
validator, so a credential violating the registration complexity rules is
rejected at validation before authentication runs. -/
theorem userLogin_enforces_password_complexity (username password : String)
    (h : userLoginAccepts username password = true) :
    8 ≤ password.length
    ∧ password.data.any Char.isUpper = true
    ∧ password.data.any Char.isLower = true
    ∧ password.data.any Char.isDigit = true := by
  simp only [userLoginAccepts, passwordMixinAccepts, Bool.and_eq_true,
    decide_eq_true_eq] at h
  obtain ⟨⟨h1, h2⟩, ⟨⟨⟨h3, h4⟩, h5⟩, h6⟩⟩ := h
  exact ⟨h3, h4, h5, h6⟩

/-- Witness for C10 at a concrete input: the accepted login
("johndoe", "Secret123"). -/
theorem userLogin_enforces_password_complexity_witness :
    userLoginAccepts "johndoe" "Secret123" = true
    ∧ (8 ≤ ("Secret123" : String).length
      ∧ ("Secret123" : String).data.any Char.isUpper = true
      ∧ ("Secret123" : String).data.any Char.isLower = true
      ∧ ("Secret123" : String).data.any Char.isDigit = true) :=
  ⟨by decide, userLogin_enforces_password_complexity "johndoe" "Secret123" (by decide)⟩

/-- Sample field set for the update witness: only first_name named. -/
def sampleUpdate : UpdateFields := { first_name := some "UpdatedName" }

/-- C6: every call to the update operation — including one with an empty
field set — strictly increases updated_at (setting it to the call time,
which the clock guarantees is later than the previous value), and every
attribute not named in the supplied field set, as well as id and
created_at, keeps its prior value. -/
theorem update_bumps_updated_at_and_frames_rest (u : User) (f : UpdateFields) (now : Nat)
    (h : u.updated_at < now) :
    u.updated_at < (User.update u f now).updated_at
    ∧ (User.update u f now).updated_at = now
    ∧ u.updated_at < (User.update u emptyUpdate now).updated_at
    ∧ (User.update u f now).id = u.id
    ∧ (User.update u f now).created_at = u.created_at
    ∧ (f.first_name = none → (User.update u f now).first_name = u.first_name)
    ∧ (f.last_name = none → (User.update u f now).last_name = u.last_name)
    ∧ (f.email = none → (User.update u f now).email = u.email)
    ∧ (f.username = none → (User.update u f now).username = u.username)
    ∧ (f.password = none → (User.update u f now).password = u.password)
    ∧ (f.is_active = none → (User.update u f now).is_active = u.is_active)
    ∧ (f.is_verified = none → (User.update u f now).is_verified = u.is_verified)
    ∧ (f.last_login = none → (User.update u f now).last_login = u.last_login) := by
  refine ⟨h, rfl, h, rfl, rfl, ?_, ?_, ?_, ?_, ?_, ?_, ?_, ?_⟩ <;>
    · intro hf
      simp [User.update, hf]

/-- Witness for C6 at a concrete input: `sampleUser` (updated_at = 10)
updated at time 11 with only first_name named. -/
theorem update_bumps_updated_at_and_frames_rest_witness :
    sampleUser.updated_at < 11
    ∧ (sampleUser.updated_at < (User.update sampleUser sampleUpdate 11).updated_at
      ∧ (User.update sampleUser sampleUpdate 11).updated_at = 11
      ∧ sampleUser.updated_at < (User.update sampleUser emptyUpdate 11).updated_at
      ∧ (User.update sampleUser sampleUpdate 11).id = sampleUser.id
      ∧ (User.update sampleUser sampleUpdate 11).created_at = sampleUser.created_at
      ∧ (sampleUpdate.first_name = none →
          (User.update sampleUser sampleUpdate 11).first_name = sampleUser.first_name)
      ∧ (sampleUpdate.last_name = none →
          (User.update sampleUser sampleUpdate 11).last_name = sampleUser.last_name)
      ∧ (sampleUpdate.email = none →
          (User.update sampleUser sampleUpdate 11).email = sampleUser.email)
      ∧ (sampleUpdate.username = none →
          (User.update sampleUser sampleUpdate 11).username = sampleUser.username)
      ∧ (sampleUpdate.password = none →
          (User.update sampleUser sampleUpdate 11).password = sampleUser.password)
      ∧ (sampleUpdate.is_active = none →
          (User.update sampleUser sampleUpdate 11).is_active = sampleUser.is_active)
      ∧ (sampleUpdate.is_verified = none →
          (User.update sampleUser sampleUpdate 11).is_verified = sampleUser.is_verified)
      ∧ (sampleUpdate.last_login = none →
          (User.update sampleUser sampleUpdate 11).last_login = sampleUser.last_login)) :=
  ⟨by decide, update_bumps_updated_at_and_frames_rest sampleUser sampleUpdate 11 (by decide)⟩

/-- C7: a successful authentication at a time later than the user's
previous updated_at and previous last_login sets last_login to the
current time (so it strictly increases, also from the null initial
state) and bumps updated_at to the current time, strictly above its
pre-call value. -/
theorem authenticate_bumps_last_login_and_updated_at
    (st : Settings) (db : Directory) (ident pass : String) (now : Nat) (u : User)
    (hFind : find_by_username_or_email db ident = some u)
    (hVer : verify_password pass u.password = true)
    (hUpd : u.updated_at < now)
    (hLog : ∀ t, u.last_login = some t → t < now) :
    ∃ r : AuthResult × Directory,
      User.authenticate st db ident pass now = some r
      ∧ r.1.user.last_login = some now
      ∧ r.1.user.updated_at = now
      ∧ u.updated_at < r.1.user.updated_at
      ∧ (∀ t, u.last_login = some t → t < now) := by
  refine ⟨(⟨create_token st (toString u.id) TokenType.access now,
            create_token st (toString u.id) TokenType.refresh now,
            User.update u { last_login := some (some now) } now⟩,
           replace_user db (User.update u { last_login := some (some now) } now)),
          ?_, rfl, rfl, hUpd, hLog⟩
  simp [User.authenticate, hFind, hVer]

/-- Witness for C7 at a concrete input: `sampleDb` (sampleUser with
updated_at = 10, last_login none) authenticated by username at time
20. -/
theorem authenticate_bumps_last_login_and_updated_at_witness :
    (find_by_username_or_email sampleDb "johndoe" = some sampleUser
      ∧ verify_password "Secret123" sampleUser.password = true
      ∧ sampleUser.updated_at < 20)
    ∧ (∃ r : AuthResult × Directory,
        User.authenticate settings sampleDb "johndoe" "Secret123" 20 = some r
        ∧ r.1.user.last_login = some 20
        ∧ r.1.user.updated_at = 20
        ∧ sampleUser.updated_at < r.1.user.updated_at
        ∧ (∀ t, sampleUser.last_login = some t → t < 20)) :=
  ⟨⟨by decide, by decide, by decide⟩,
   authenticate_bumps_last_login_and_updated_at settings sampleDb "johndoe" "Secret123" 20
     sampleUser (by decide) (by decide) (by decide)
     (fun t ht => by simp [sampleUser] at ht)⟩

/-- Sample inactive user: `sampleUser` with the is_active flag cleared
and fresh identity fields. -/
def sampleInactiveUser : User :=
  ⟨3, "Inactive", "User", "inactive@example.com", "inactiveuser", sampleDigest,
   false, true, 10, 10, none⟩

/-- Sample directory holding only the inactive user. -/
def sampleInactiveDb : Directory := ⟨[sampleInactiveUser], 4⟩

/-- C1: a user whose is_active flag is false but whose supplied password
verifies against the stored digest authenticates successfully — the
result carries the freshly minted access and refresh tokens bound to the
user's id together with the user record, still inactive; no transition of
the state machine gates on is_active. -/
theorem authenticate_does_not_gate_on_is_active
    (st : Settings) (db : Directory) (ident pass : String) (now : Nat) (u : User)
    (hFind : find_by_username_or_email db ident = some u)
    (hInactive : u.is_active = false)
    (hVer : verify_password pass u.password = true) :
    ∃ r : AuthResult × Directory,
      User.authenticate st db ident pass now = some r
      ∧ r.1.user.id = u.id
      ∧ r.1.user.is_active = false
      ∧ r.1.access_token = create_token st (toString u.id) TokenType.access now
      ∧ r.1.refresh_token = create_token st (toString u.id) TokenType.refresh now := by
  refine ⟨(⟨create_token st (toString u.id) TokenType.access now,
            create_token st (toString u.id) TokenType.refresh now,
            User.update u { last_login := some (some now) } now⟩,
           replace_user db (User.update u { last_login := some (some now) } now)),
          ?_, rfl, ?_, rfl, rfl⟩
  · simp [User.authenticate, hFind, hVer]
  · simpa [User.update] using hInactive

/-- Witness for C1 at a concrete input: the inactive sample user
authenticating with the correct password at time 20. -/
theorem authenticate_does_not_gate_on_is_active_witness :
    (find_by_username_or_email sampleInactiveDb "inactiveuser" = some sampleInactiveUser
      ∧ sampleInactiveUser.is_active = false
      ∧ verify_password "Secret123" sampleInactiveUser.password = true)
    ∧ (∃ r : AuthResult × Directory,
        User.authenticate settings sampleInactiveDb "inactiveuser" "Secret123" 20 = some r
        ∧ r.1.user.id = sampleInactiveUser.id
        ∧ r.1.user.is_active = false
        ∧ r.1.access_token =
            create_token settings (toString sampleInactiveUser.id) TokenType.access 20
        ∧ r.1.refresh_token =
            create_token settings (toString sampleInactiveUser.id) TokenType.refresh 20) :=
  ⟨⟨by decide, by decide, by decide⟩,
   authenticate_does_not_gate_on_is_active settings sampleInactiveDb "inactiveuser"
     "Secret123" 20 sampleInactiveUser (by decide) (by decide) (by decide)⟩

/-- C3: when the identifier resolves to no user, and when it resolves to
a user whose stored digest does not verify against the supplied password,
authenticate returns the one identical no-match signal (`none`); callers
cannot tell lookup failure from password mismatch. -/
theorem authenticate_uniform_no_match
    (st : Settings) (db : Directory) (ident pass : String) (now : Nat)
    (h : find_by_username_or_email db ident = none
      ∨ ∃ u, find_by_username_or_email db ident = some u
          ∧ verify_password pass u.password = false) :
    User.authenticate st db ident pass now = none := by
  rcases h with h | ⟨u, hf, hv⟩
  · simp [User.authenticate, h]
  · simp [User.authenticate, hf, hv]

/-- Witness for C3 at concrete inputs: a wrong password for an existing
user and an unknown identifier both yield the identical `none`. -/
theorem authenticate_uniform_no_match_witness :
    User.authenticate settings sampleDb "johndoe" "incorrectpass" 20 = none
    ∧ User.authenticate settings sampleDb "nonexistentuser" "any_password" 20 = none :=
  ⟨authenticate_uniform_no_match settings sampleDb "johndoe" "incorrectpass" 20
     (Or.inr ⟨sampleUser, by decide, by decide⟩),
   authenticate_uniform_no_match settings sampleDb "nonexistentuser" "any_password" 20
     (Or.inl (by decide))⟩

/-- C2: from any directory state in which a first registration succeeds
(no pre-existing duplicate, fresh id), a second attempt reusing the first
attempt's email fails with the typed error DuplicateEmail, and a second
attempt reusing the first attempt's username (with a non-conflicting
email) fails with the typed error DuplicateUsername; in both cases the
first user's row remains in the directory, queryable by id, with all its
registration fields unchanged. -/
theorem create_duplicate_typed_and_first_intact
    (db : Directory) (f1 f2 f3 : RegistrationData) (now1 now2 : Nat)
    (hEm1 : db.users.any (fun u => u.email == f1.email) = false)
    (hUn1 : db.users.any (fun u => u.username == f1.username) = false)
    (hFresh : ∀ u ∈ db.users, (u.id == db.nextId) = false)
    (hem : f2.email = f1.email)
    (hun : f3.username = f1.username)
    (hEm3 : db.users.any (fun u => u.email == f3.email) = false)
    (hne : f3.email ≠ f1.email) :
    ∃ u1 db1,
      Directory.create db f1 now1 = Except.ok (u1, db1)
      ∧ Directory.create db1 f2 now2 = Except.error CreateError.duplicateEmail
      ∧ Directory.create db1 f3 now2 = Except.error CreateError.duplicateUsername
      ∧ db1.find_by_id u1.id = some u1
      ∧ u1.first_name = f1.first_name
      ∧ u1.last_name = f1.last_name
      ∧ u1.email = f1.email
      ∧ u1.username = f1.username
      ∧ u1.password = f1.password := by
  refine ⟨⟨db.nextId, f1.first_name, f1.last_name, f1.email, f1.username, f1.password,
           true, false, now1, now1, none⟩,
          ⟨db.users ++ [⟨db.nextId, f1.first_name, f1.last_name, f1.email, f1.username,
                         f1.password, true, false, now1, now1, none⟩], db.nextId + 1⟩,
          ?_, ?_, ?_, ?_, rfl, rfl, rfl, rfl, rfl⟩
  · simp [Directory.create, hEm1, hUn1]
  · simp [Directory.create, List.any_append, hem]
  · have h3 : (f1.email == f3.email) = false := by
      simpa using fun hcontra => hne hcontra.symm
    simp [Directory.create, List.any_append, hEm3, h3, hun]
  · have hnone : db.users.find? (fun u => u.id == db.nextId) = none := by
      rw [List.find?_eq_none]
      intro u hu
      simpa using hFresh u hu
    simp [Directory.find_by_id, List.find?_append, hnone]

/-- Registration data of the first witness user. -/
def regFirst : RegistrationData :=
  ⟨"First", "User", "first@example.com", "firstuser", (get_password_hash "password123" 0).1⟩

/-- Registration data reusing the first user's email. -/
def regDupEmail : RegistrationData :=
  ⟨"Second", "User", "first@example.com", "seconduser", (get_password_hash "password456" 1).1⟩

/-- Registration data reusing the first user's username. -/
def regDupUsername : RegistrationData :=
  ⟨"Third", "User", "third@example.com", "firstuser", (get_password_hash "password789" 2).1⟩

/-- Witness for C2 at concrete inputs: registering into the empty
directory, then reattempting with the same email and with the same
username. -/
theorem create_duplicate_typed_and_first_intact_witness :
    ((⟨[], 1⟩ : Directory).users.any (fun u => u.email == regFirst.email) = false
      ∧ (⟨[], 1⟩ : Directory).users.any (fun u => u.username == regFirst.username) = false
      ∧ regDupEmail.email = regFirst.email
      ∧ regDupUsername.username = regFirst.username)
    ∧ (∃ u1 db1,
        Directory.create ⟨[], 1⟩ regFirst 5 = Except.ok (u1, db1)
        ∧ Directory.create db1 regDupEmail 6 = Except.error CreateError.duplicateEmail
        ∧ Directory.create db1 regDupUsername 6 = Except.error CreateError.duplicateUsername
        ∧ db1.find_by_id u1.id = some u1
        ∧ u1.first_name = regFirst.first_name
        ∧ u1.last_name = regFirst.last_name
        ∧ u1.email = regFirst.email
        ∧ u1.username = regFirst.username
        ∧ u1.password = regFirst.password) :=
  ⟨⟨by decide, by decide, by decide, by decide⟩,
   create_duplicate_typed_and_first_intact ⟨[], 1⟩ regFirst regDupEmail regDupUsername 5 6
     (by decide) (by decide) (by decide) (by decide) (by decide) (by decide) (by decide)⟩
